import Mathlib

/-!
Verification development for the event-driven pager engine of the `minus`
repository.  The definitions below are shallow embeddings of the Rust source
files `src/input/event_wrapper.rs`, `src/input/mod.rs`,
`src/input/definitions/mod.rs` and `src/core/ev_handler.rs`.

Machine integers (`usize`, `u16`) are modelled as `Nat` with explicit
saturation at `USIZE_MAX`; fallible or panicking code is modelled with
explicit outcome types.  Collaborator code of the repository that is not
among the four source files (the formatter, the search helpers, the
terminal session) is modelled from the specification and marked as such
in its doc comment.
-/

set_option autoImplicit false

/-- `usize::MAX` on a 64-bit target. -/
def USIZE_MAX : Nat := 2 ^ 64 - 1

/-- Rust `usize::saturating_add` (usize modelled as `Nat`). -/
def usizeAdd (a b : Nat) : Nat := min (a + b) USIZE_MAX

/-! ## The crossterm raw-event model

`crossterm::event::{Event, KeyEvent, KeyCode, KeyModifiers, MouseEvent,
MouseEventKind, MouseButton}` as used by the source.  `KeyModifiers` is a
bitflags value; it is modelled as its raw bit pattern (`SHIFT = 1`,
`CONTROL = 2`, `ALT = 4`, `NONE = 0`). -/

/-- crossterm `KeyModifiers` bit patterns. -/
def KeyModifiers.NONE : Nat := 0

/-- crossterm `KeyModifiers::SHIFT`. -/
def KeyModifiers.SHIFT : Nat := 1

/-- crossterm `KeyModifiers::CONTROL`. -/
def KeyModifiers.CONTROL : Nat := 2

/-- crossterm `KeyModifiers::ALT`. -/
def KeyModifiers.ALT : Nat := 4

/-- crossterm `KeyCode`. -/
inductive KeyCode where
  | Backspace
  | Enter
  | Left
  | Right
  | Up
  | Down
  | Home
  | End
  | PageUp
  | PageDown
  | Tab
  | BackTab
  | Delete
  | Insert
  | F (n : Nat)
  | Char (c : Char)
  | Null
  | Esc
  deriving DecidableEq, Repr

/-- crossterm `KeyEvent` (the fields matched by the source: code and
modifiers). -/
structure KeyEvent where
  code : KeyCode
  modifiers : Nat
  deriving DecidableEq, Repr

/-- crossterm `MouseButton`. -/
inductive MouseButton where
  | Left
  | Right
  | Middle
  deriving DecidableEq, Repr

/-- crossterm `MouseEventKind`. -/
inductive MouseEventKind where
  | Down (b : MouseButton)
  | Up (b : MouseButton)
  | Drag (b : MouseButton)
  | Moved
  | ScrollDown
  | ScrollUp
  deriving DecidableEq, Repr

/-- crossterm `MouseEvent`: action kind, screen coordinates and the
modifier set. -/
structure MouseEvent where
  kind : MouseEventKind
  column : Nat
  row : Nat
  modifiers : Nat
  deriving DecidableEq, Repr

/-- crossterm `Event`: a raw terminal input. -/
inductive Event where
  | Key (ke : KeyEvent)
  | Mouse (me : MouseEvent)
  | Resize (cols rows : Nat)
  deriving DecidableEq, Repr

/-! ## Hash-feed encodings

Rust's derived `Hash` feeds the variant discriminant followed by the field
values into the hasher.  The model of a hash value is the exact token
stream fed to the hasher (`List Nat`): two values receive the same hash
from every hasher iff their token streams are equal.  The encodings below
are injective on each variant and the streams of different shapes are kept
distinct, matching the (collision-free, for model purposes) behaviour of
the real 64-bit hasher. -/

/-- Token stream of the derived `Hash` of `MouseButton`. -/
def encButton : MouseButton → Nat
  | .Left => 0
  | .Right => 1
  | .Middle => 2

/-- Token stream of the derived `Hash` of `MouseEventKind`.  The first
token is offset by 50 so that a mouse stream never coincides with a
key-event stream. -/
def encKind : MouseEventKind → List Nat
  | .Down b => [50, encButton b]
  | .Up b => [51, encButton b]
  | .Drag b => [52, encButton b]
  | .Moved => [53]
  | .ScrollDown => [54]
  | .ScrollUp => [55]

/-- Token stream of the derived `Hash` of `KeyCode`. -/
def encCode : KeyCode → List Nat
  | .Backspace => [0]
  | .Enter => [1]
  | .Left => [2]
  | .Right => [3]
  | .Up => [4]
  | .Down => [5]
  | .Home => [6]
  | .End => [7]
  | .PageUp => [8]
  | .PageDown => [9]
  | .Tab => [10]
  | .BackTab => [11]
  | .Delete => [12]
  | .Insert => [13]
  | .F n => [14, n]
  | .Char c => [15, c.toNat]
  | .Null => [16]
  | .Esc => [17]

/-- Token stream of the derived `Hash` of `Event` (discriminant followed
by the fields). -/
def encEvent : Event → List Nat
  | .Key ke => 0 :: encCode ke.code ++ [ke.modifiers]
  | .Mouse me => 1 :: encKind me.kind ++ [me.column, me.row, me.modifiers]
  | .Resize c r => [2, c, r]

/-! ## `src/input/event_wrapper.rs`: the keybinding registry -/

namespace EventWrapperMod

/-- `EventWrapper` from `src/input/event_wrapper.rs`: the key type of
`HashedEventRegister`. -/
inductive EventWrapper where
  | ExactMatchEvent (e : Event)
  | WildEvent
  deriving DecidableEq, Repr

/-- Outcome of running the hand-written `PartialEq for EventWrapper`:
the call returns a boolean, panics (`unreachable!()`), or never returns. -/
inductive EqOutcome where
  | ret (b : Bool)
  | panics
  | loops
  deriving DecidableEq, Repr

/-- The hand-written `EventWrapper::eq` (event_wrapper.rs lines 31-52).
When `self` is a mouse event it compares only the action kind and the
modifier set (coordinates are ignored) and hits `unreachable!()` if
`other` is not a mouse event.  In every other case the body evaluates
`self == other`, which re-enters the same `eq` with unchanged arguments:
the call never returns, modelled as `loops`. -/
def eq : EventWrapper → EventWrapper → EqOutcome
  | .ExactMatchEvent (.Mouse m), other =>
      match other with
      | .ExactMatchEvent (.Mouse m') =>
          .ret (decide (m.kind = m'.kind) && decide (m.modifiers = m'.modifiers))
      | _ => .panics
  | _, _ => .loops

/-- The hand-written `Hash for EventWrapper` (event_wrapper.rs lines
54-71) as the token stream fed to the hasher: the discriminant tag first,
then for a mouse event only the kind and the modifiers, nothing more for
`WildEvent` and `Resize`, and the full derived event stream otherwise. -/
def hash : EventWrapper → List Nat
  | .ExactMatchEvent (.Mouse m) => 0 :: encKind m.kind ++ [m.modifiers]
  | .WildEvent => [1]
  | .ExactMatchEvent (.Resize _ _) => [0]
  | .ExactMatchEvent v => 0 :: encEvent v

/-- Outcome of a `HashMap` probe / registry lookup. -/
inductive Lookup (α : Type) where
  | found (a : α)
  | absent
  | panics
  | loops
  deriving DecidableEq, Repr

/-- `HashMap::get` over the registry contents: the probe considers
exactly the stored entries whose hash equals the hash of the looked-up
key and runs `EventWrapper::eq` with the looked-up key as `self` on each,
propagating a panic or non-termination of `eq`. -/
def mapGet {α : Type} : List (EventWrapper × α) → EventWrapper → Lookup α
  | [], _ => .absent
  | (k', v) :: rest, k =>
      if hash k' = hash k then
        match eq k k' with
        | .ret true => .found v
        | .ret false => mapGet rest k
        | .panics => .panics
        | .loops => .loops
      else mapGet rest k

/-- `HashedEventRegister::get` (event_wrapper.rs lines 88-92): probe the
exact wrapper of the raw input, and on a clean miss fall back to the
wildcard entry. -/
def get {α : Type} (reg : List (EventWrapper × α)) (k : Event) : Lookup α :=
  match mapGet reg (.ExactMatchEvent k) with
  | .found v => .found v
  | .absent => mapGet reg .WildEvent
  | .panics => .panics
  | .loops => .loops

end EventWrapperMod

/-- C1: two mouse raw inputs with the same action kind and modifier set
and arbitrary (possibly different) coordinates are treated as equal by
`EventWrapper::eq`, receive the same hash stream, and a lookup with
either input in a registry holding one binding for that kind/modifier
pair resolves to that binding's callback. -/
theorem C1_mouse_coordinate_invariance
    (k : MouseEventKind) (mods c0 r0 c1 r1 c2 r2 : Nat) (cb : Nat) :
    EventWrapperMod.eq
        (.ExactMatchEvent (.Mouse ⟨k, c1, r1, mods⟩))
        (.ExactMatchEvent (.Mouse ⟨k, c2, r2, mods⟩)) = .ret true ∧
    EventWrapperMod.hash (.ExactMatchEvent (.Mouse ⟨k, c1, r1, mods⟩)) =
      EventWrapperMod.hash (.ExactMatchEvent (.Mouse ⟨k, c2, r2, mods⟩)) ∧
    EventWrapperMod.get
        [(.ExactMatchEvent (.Mouse ⟨k, c0, r0, mods⟩), cb)]
        (.Mouse ⟨k, c1, r1, mods⟩) = .found cb ∧
    EventWrapperMod.get
        [(.ExactMatchEvent (.Mouse ⟨k, c0, r0, mods⟩), cb)]
        (.Mouse ⟨k, c2, r2, mods⟩) = .found cb := by
  refine ⟨?_, ?_, ?_, ?_⟩ <;>
    simp [EventWrapperMod.eq, EventWrapperMod.hash, EventWrapperMod.get,
      EventWrapperMod.mapGet]

/-- C2: evaluating the registry lookup at a registry that holds a binding
for the plain `q` key press and looking up exactly that key press: the
hand-written `eq` is entered on the hash-matching entry and its else
branch re-enters itself with unchanged arguments, so the lookup never
returns (in the running program: unbounded recursion, a stack overflow),
contradicting "lookup terminates without panicking". -/
theorem C2_key_lookup_diverges :
    EventWrapperMod.get
        [(.ExactMatchEvent (.Key ⟨.Char 'q', KeyModifiers.NONE⟩), (0 : Nat))]
        (.Key ⟨.Char 'q', KeyModifiers.NONE⟩) = .loops := by
  rfl

/-- C8: evaluating the registry lookup at a registry that holds only a
wildcard entry and looking up a key press: the exact probe misses, the
wildcard probe enters the hand-written `eq` on the wildcard entry, and
its else branch re-enters itself with unchanged arguments, so the lookup
never returns instead of yielding the wildcard callback as the claim
states. -/
theorem C8_wildcard_fallback_diverges :
    EventWrapperMod.get
        [(.WildEvent, (0 : Nat))]
        (.Key ⟨.Char 'x', KeyModifiers.NONE⟩) = .loops := by
  rfl

/-! ## Pager state and semantic events -/

/-- `SearchMode` (crate `minus_core::search`). -/
inductive SearchMode where
  | Forward
  | Reverse
  deriving DecidableEq, Repr

/-- `LineNumbers` (crate root; the enum itself is not under `src/`).
Modelled from the spec: a display-mode toggle with always-on / always-off
host overrides. -/
inductive LineNumbers where
  | AlwaysOn
  | AlwaysOff
  | Enabled
  | Disabled
  deriving DecidableEq, Repr

/-- Modelled from the spec: `impl Not for LineNumbers` (crate root, not
under `src/`): the user toggle flips `Enabled`/`Disabled` and leaves the
host-forced modes unchanged. -/
def LineNumbers.not : LineNumbers → LineNumbers
  | .Enabled => .Disabled
  | .Disabled => .Enabled
  | l => l

/-- `ExitStrategy` (crate root, not under `src/`); the dispatcher only
stores it. -/
inductive ExitStrategy where
  | ProcessQuit
  | PagerQuit
  deriving DecidableEq, Repr

/-- `InputEvent` from `src/input/mod.rs` lines 18-48.  A compiled search
pattern is represented by its pattern text. -/
inductive InputEvent where
  | Exit
  | UpdateTermArea (cols rows : Nat)
  | UpdateUpperMark (um : Nat)
  | UpdateLineNumber (l : LineNumbers)
  | Number (c : Char)
  | RestorePrompt
  | Ignore
  | Search (m : SearchMode)
  | NextMatch
  | PrevMatch
  | MoveToNextMatch (n : Nat)
  | MoveToPrevMatch (n : Nat)
  deriving DecidableEq, Repr

/-- `PagerState` (crate root; the struct itself is not under `src/`).
The fields are the ones read and written by the embedded source: content,
derived display rows, view position, terminal size, display options,
status texts, session policy and the search state.  A compiled regex is
modelled by its pattern string; `displayed_prompt` is the derived prompt
line recomputed by `format_prompt`; `exit_cbs_run` records that
`PagerState::exit` ran the exit callbacks; `input_classifier` and the
exit-callback list are modelled by an identifier and a counter, since the
dispatcher only stores/pushes them. -/
structure PagerState where
  lines : String
  formatted_lines : List String
  upper_mark : Nat
  rows : Nat
  cols : Nat
  line_numbers : LineNumbers
  prefix_num : String
  message : Option String
  prompt : String
  displayed_prompt : String
  exit_strategy : ExitStrategy
  run_no_overflow : Bool
  input_classifier : Nat
  exit_callbacks : Nat
  exit_cbs_run : Bool
  search_mode : SearchMode
  search_term : Option String
  search_mark : Nat
  search_idx : List Nat
  deriving Repr

/-- Rust `str::parse::<usize>` as applied to the digit-accumulation
buffer: succeeds exactly on a nonempty all-digit string whose value fits
in `usize` (the buffer only ever receives the characters `0`-`9`). -/
def parseUsize (s : String) : Option Nat :=
  if s.isEmpty then none
  else if s.data.all Char.isDigit then
    let v := s.data.foldl (fun a c => a * 10 + (c.toNat - 48)) 0
    if v ≤ USIZE_MAX then some v else none
  else none

/-! ## `src/input/mod.rs` lines 230-408: the default classifier

`DefaultInputClassifier::classify_input` is one guarded match over the
raw event.  Every arm is total except the `PageUp` and `PageDown`/space
arms, which evaluate `ps.rows - 1` with an unguarded `usize` subtraction:
when `rows = 0` that subtraction underflows (a panic in the running
program), modelled as the `.error` outcome. -/

namespace DefaultInputClassifier

/-- The pattern+guard of the number-key arm: the code is `KeyCode::Char c`
with `c.is_ascii_digit()`. -/
def isDigitKey : KeyCode → Bool
  | .Char c => c.isDigit
  | _ => false

/-- The key-event arms of `classify_input`, in source order.  `code` and
`mods` are the fields of the matched `KeyEvent`. -/
def classifyKey (code : KeyCode) (mods : Nat) (ps : PagerState) :
    Except Unit (Option InputEvent) :=
  -- Scroll up by one: Up / 'k', no modifiers.
  if (code = .Up ∨ code = .Char 'k') ∧ mods = KeyModifiers.NONE then
    .ok (some (.UpdateUpperMark
      (ps.upper_mark - ((parseUsize ps.prefix_num).getD 1))))
  -- Scroll down by one: Down / 'j', no modifiers.
  else if (code = .Down ∨ code = .Char 'j') ∧ mods = KeyModifiers.NONE then
    .ok (some (.UpdateUpperMark
      (usizeAdd ps.upper_mark ((parseUsize ps.prefix_num).getD 1))))
  -- Number keys: the pattern binds the character of `KeyCode::Char` and
  -- the guard requires it to be an ASCII digit.
  else if isDigitKey code = true ∧ mods = KeyModifiers.NONE then
    .ok (match code with
      | .Char c => some (.Number c)
      | _ => none)
  -- Enter key.
  else if code = .Enter ∧ mods = KeyModifiers.NONE then
    if ps.message.isSome then .ok (some .RestorePrompt)
    else
      .ok (some (.UpdateUpperMark
        (usizeAdd ps.upper_mark ((parseUsize ps.prefix_num).getD 1))))
  -- Scroll up by half screen height: 'u' with CONTROL or no modifiers.
  else if code = .Char 'u' ∧
      (mods = KeyModifiers.CONTROL ∨ mods = KeyModifiers.NONE) then
    .ok (some (.UpdateUpperMark (ps.upper_mark - ps.rows / 2)))
  -- Scroll down by half screen height: 'd' with CONTROL or no modifiers.
  else if code = .Char 'd' ∧
      (mods = KeyModifiers.CONTROL ∨ mods = KeyModifiers.NONE) then
    .ok (some (.UpdateUpperMark (usizeAdd ps.upper_mark (ps.rows / 2))))
  -- Go to top.
  else if code = .Char 'g' ∧ mods = KeyModifiers.NONE then
    .ok (some (.UpdateUpperMark 0))
  -- Go to bottom: 'g'+SHIFT, 'G'+SHIFT or plain 'G'.
  else if (code = .Char 'g' ∧ mods = KeyModifiers.SHIFT) ∨
      (code = .Char 'G' ∧ mods = KeyModifiers.SHIFT) ∨
      (code = .Char 'G' ∧ mods = KeyModifiers.NONE) then
    let position := ((parseUsize ps.prefix_num).getD USIZE_MAX) - 1
    .ok (some (.UpdateUpperMark (if position = 0 then USIZE_MAX else position)))
  -- Page up: `ps.rows - 1` underflows when rows = 0.
  else if code = .PageUp ∧ mods = KeyModifiers.NONE then
    if ps.rows = 0 then .error ()
    else .ok (some (.UpdateUpperMark (ps.upper_mark - (ps.rows - 1))))
  -- Page down / space: `ps.rows - 1` underflows when rows = 0.
  else if (code = .PageDown ∨ code = .Char ' ') ∧ mods = KeyModifiers.NONE then
    if ps.rows = 0 then .error ()
    else .ok (some (.UpdateUpperMark (usizeAdd ps.upper_mark (ps.rows - 1))))
  -- Switch line number display.
  else if code = .Char 'l' ∧ mods = KeyModifiers.CONTROL then
    .ok (some (.UpdateLineNumber ps.line_numbers.not))
  -- Quit.
  else if (code = .Char 'q' ∧ mods = KeyModifiers.NONE) ∨
      (code = .Char 'c' ∧ mods = KeyModifiers.CONTROL) then
    .ok (some .Exit)
  -- Forward search.
  else if code = .Char '/' ∧ mods = KeyModifiers.NONE then
    .ok (some (.Search .Forward))
  -- Reverse search.
  else if code = .Char '?' ∧ mods = KeyModifiers.NONE then
    .ok (some (.Search .Reverse))
  -- Next match (direction inverted in reverse mode).
  else if code = .Char 'n' ∧ mods = KeyModifiers.NONE then
    let position := (parseUsize ps.prefix_num).getD 1
    if ps.search_mode = SearchMode.Reverse then
      .ok (some (.MoveToPrevMatch position))
    else .ok (some (.MoveToNextMatch position))
  -- Previous match (direction inverted in reverse mode).
  else if code = .Char 'p' ∧ mods = KeyModifiers.NONE then
    let position := (parseUsize ps.prefix_num).getD 1
    if ps.search_mode = SearchMode.Reverse then
      .ok (some (.MoveToNextMatch position))
    else .ok (some (.MoveToPrevMatch position))
  else .ok none

/-- `DefaultInputClassifier::classify_input` (mod.rs lines 232-406).  The
mouse-scroll and resize arms of the source match are interleaved between
key arms but overlap no key pattern, so grouping by event constructor
preserves the source semantics. -/
def classify_input (ev : Event) (ps : PagerState) :
    Except Unit (Option InputEvent) :=
  match ev with
  | .Key ke => classifyKey ke.code ke.modifiers ps
  | .Mouse me =>
      match me.kind with
      | .ScrollUp => .ok (some (.UpdateUpperMark (ps.upper_mark - 5)))
      | .ScrollDown => .ok (some (.UpdateUpperMark (usizeAdd ps.upper_mark 5)))
      | _ => .ok none
  | .Resize c r => .ok (some (.UpdateTermArea c r))

end DefaultInputClassifier

/-- A representative pager state used by concrete evaluations. -/
def ps0 : PagerState :=
  { lines := "", formatted_lines := [], upper_mark := 0, rows := 5, cols := 80,
    line_numbers := .Disabled, prefix_num := "", message := none,
    prompt := "minus", displayed_prompt := "minus",
    exit_strategy := .ProcessQuit, run_no_overflow := false,
    input_classifier := 0, exit_callbacks := 0, exit_cbs_run := false,
    search_mode := .Forward, search_term := none, search_mark := 0,
    search_idx := [] }

/-- Evaluation of the go-to-bottom arm at the plain `G` key: the guards of
all earlier arms are closed false conditions, so the classifier reduces to
the arm's own computation for every state. -/
theorem classifyKey_G_none (ps : PagerState) :
    DefaultInputClassifier.classifyKey (.Char 'G') KeyModifiers.NONE ps =
      .ok (some (.UpdateUpperMark
        (if ((parseUsize ps.prefix_num).getD USIZE_MAX) - 1 = 0 then USIZE_MAX
         else ((parseUsize ps.prefix_num).getD USIZE_MAX) - 1))) := rfl

/-- Evaluation of the go-to-bottom arm at `G` with SHIFT. -/
theorem classifyKey_G_shift (ps : PagerState) :
    DefaultInputClassifier.classifyKey (.Char 'G') KeyModifiers.SHIFT ps =
      .ok (some (.UpdateUpperMark
        (if ((parseUsize ps.prefix_num).getD USIZE_MAX) - 1 = 0 then USIZE_MAX
         else ((parseUsize ps.prefix_num).getD USIZE_MAX) - 1))) := rfl

/-- Evaluation of the go-to-bottom arm at `g` with SHIFT. -/
theorem classifyKey_g_shift (ps : PagerState) :
    DefaultInputClassifier.classifyKey (.Char 'g') KeyModifiers.SHIFT ps =
      .ok (some (.UpdateUpperMark
        (if ((parseUsize ps.prefix_num).getD USIZE_MAX) - 1 = 0 then USIZE_MAX
         else ((parseUsize ps.prefix_num).getD USIZE_MAX) - 1))) := rfl

/-- C4, counterexample: with prefix buffer `"1"` the `G` key classifies to
a move to the end-of-content sentinel `usize::MAX` (the claim demands a
move to line `1 - 1 = 0`, with the sentinel reserved for prefix `0` or no
prefix); and with an empty prefix buffer it classifies to a move to
`usize::MAX - 1`, not to the maximum representable value the claim names. -/
theorem C4_go_to_bottom_counterexample :
    DefaultInputClassifier.classify_input
        (.Key ⟨.Char 'G', KeyModifiers.NONE⟩) { ps0 with prefix_num := "1" } =
      .ok (some (.UpdateUpperMark USIZE_MAX)) ∧
    USIZE_MAX ≠ 0 ∧
    DefaultInputClassifier.classify_input
        (.Key ⟨.Char 'G', KeyModifiers.NONE⟩) ps0 =
      .ok (some (.UpdateUpperMark (USIZE_MAX - 1))) ∧
    USIZE_MAX - 1 ≠ USIZE_MAX := by
  refine ⟨rfl, by decide, rfl, by decide⟩

/-- C4, amended: classifying `G` (or Shift+`g`) moves the upper mark to
the prefix-count-th line minus one only for parsable prefixes of value at
least 2; a prefix of value 0 or 1 yields the end-of-content sentinel
`usize::MAX`; and an absent or unparsable prefix yields `usize::MAX - 1`. -/
theorem C4_go_to_bottom_amended (ps : PagerState) (ke : KeyEvent)
    (hke : ke = ⟨.Char 'G', KeyModifiers.NONE⟩ ∨
           ke = ⟨.Char 'G', KeyModifiers.SHIFT⟩ ∨
           ke = ⟨.Char 'g', KeyModifiers.SHIFT⟩) :
    (∀ k, parseUsize ps.prefix_num = some k → 2 ≤ k →
        DefaultInputClassifier.classify_input (.Key ke) ps =
          .ok (some (.UpdateUpperMark (k - 1)))) ∧
    ((parseUsize ps.prefix_num = some 0 ∨ parseUsize ps.prefix_num = some 1) →
        DefaultInputClassifier.classify_input (.Key ke) ps =
          .ok (some (.UpdateUpperMark USIZE_MAX))) ∧
    (parseUsize ps.prefix_num = none →
        DefaultInputClassifier.classify_input (.Key ke) ps =
          .ok (some (.UpdateUpperMark (USIZE_MAX - 1)))) := by
  have hred :
      DefaultInputClassifier.classify_input (.Key ke) ps =
        .ok (some (.UpdateUpperMark
          (if ((parseUsize ps.prefix_num).getD USIZE_MAX) - 1 = 0 then USIZE_MAX
           else ((parseUsize ps.prefix_num).getD USIZE_MAX) - 1))) := by
    rcases hke with h | h | h <;> subst h
    · exact classifyKey_G_none ps
    · exact classifyKey_G_shift ps
    · exact classifyKey_g_shift ps
  refine ⟨?_, ?_, ?_⟩
  · intro k hk h2
    rw [hred, hk]
    simp only [Option.getD_some]
    rw [if_neg (by omega)]
  · rintro (hk | hk) <;> rw [hred, hk] <;> simp
  · intro hk
    rw [hred, hk]
    simp only [Option.getD_none]
    rw [if_neg (by decide)]

/-- C4, amended, witnessed at prefix buffer `"3"`: the `G` key moves the
upper mark to line `3 - 1 = 2`. -/
theorem C4_go_to_bottom_amended_witness :
    DefaultInputClassifier.classify_input
        (.Key ⟨.Char 'G', KeyModifiers.NONE⟩) { ps0 with prefix_num := "3" } =
      .ok (some (.UpdateUpperMark 2)) :=
  (C4_go_to_bottom_amended { ps0 with prefix_num := "3" } _ (Or.inl rfl)).1
    3 rfl (by norm_num)

/-- An if-expression whose two branches both return cleanly returns
cleanly. -/
theorem except_isOk_ite {ε α : Type} {c : Prop} [Decidable c]
    {a b : Except ε α} (ha : a.isOk = true) (hb : b.isOk = true) :
    (if c then a else b).isOk = true := by
  by_cases h : c
  · rw [if_pos h]; exact ha
  · rw [if_neg h]; exact hb

/-- An if-expression guarding a panic returns cleanly when the guard is
known false. -/
theorem except_isOk_guard {ε α : Type} {c : Prop} [Decidable c]
    (hc : ¬c) {e : ε} {x : Except ε α} (hx : x.isOk = true) :
    (if c then Except.error e else x).isOk = true := by
  rw [if_neg hc]; exact hx

/-- C10: the default classifier returns (no panic) on every raw input and
every state whose row count is at least 1; the only partial operations in
its arms are the two unguarded `rows - 1` subtractions. -/
theorem C10_default_classifier_total (ev : Event) (ps : PagerState)
    (h : 1 ≤ ps.rows) :
    (DefaultInputClassifier.classify_input ev ps).isOk = true := by
  cases ev with
  | Key ke =>
      show (DefaultInputClassifier.classifyKey ke.code ke.modifiers ps).isOk = true
      unfold DefaultInputClassifier.classifyKey
      repeat' first
        | rfl
        | apply except_isOk_guard
        | apply except_isOk_ite
      all_goals omega
  | Mouse me =>
      rcases me with ⟨k, c, r, m⟩
      cases k <;> rfl
  | Resize c r => rfl

/-- C10, witnessed at the PageUp key and the representative state (rows
= 5). -/
theorem C10_default_classifier_total_witness :
    1 ≤ ps0.rows ∧
    (DefaultInputClassifier.classify_input
        (.Key ⟨.PageUp, KeyModifiers.NONE⟩) ps0).isOk = true :=
  ⟨by decide,
    C10_default_classifier_total (.Key ⟨.PageUp, KeyModifiers.NONE⟩) ps0
      (by decide)⟩

/-! ## `src/input/mod.rs` lines 98-224: the older registry

This file's `EventWrapper` derives `PartialEq` (full structural equality)
and hand-writes only `Hash`.  Its `HashedEventRegister` carries the
`BindType`-driven insertion used by C9. -/

namespace InputMod

/-- `BindType` (mod.rs lines 220-224): `Mouse` and `Resize` are the
reserved, not-yet-wired binding categories. -/
inductive BindType where
  | Key
  | Mouse
  | Resize
  deriving DecidableEq, Repr

/-- `EventWrapper` from `src/input/mod.rs` (derived structural
equality). -/
inductive EventWrapper where
  | ExactMatchEvent (e : Event)
  | WildEvent
  deriving DecidableEq, Repr

/-- The hand-written `Hash for EventWrapper` (mod.rs lines 116-133) as
the token stream fed to the hasher: the tag, then kind and modifiers only
for a mouse event, the full derived stream for any other exact event
(including `Resize`), and nothing more for the wildcard. -/
def hash : EventWrapper → List Nat
  | .ExactMatchEvent (.Mouse m) => 0 :: encKind m.kind ++ [m.modifiers]
  | .ExactMatchEvent v => 0 :: encEvent v
  | .WildEvent => [1]

/-- `HashMap::insert` under this file's derived (structural, hence
hash-consistent) key equality: replace the value of an existing equal
key, otherwise add the entry. -/
def mapInsert {α : Type} : List (EventWrapper × α) → EventWrapper → α →
    List (EventWrapper × α)
  | [], k, v => [(k, v)]
  | (k', v') :: rest, k, v =>
      if k' = k then (k', v) :: rest else (k', v') :: mapInsert rest k v

/-- Outcome of an insertion: the updated registry, or an aborted
construction (a panic such as `unreachable!()`/`todo!()`; no arm of the
embedded `insert_rc` produces it). -/
inductive InsertOutcome (α : Type) where
  | ok (reg : List (EventWrapper × α))
  | aborted
  deriving DecidableEq, Repr

/-- `HashedEventRegister::insert_rc` (mod.rs lines 164-177).
`parse_key_event` lives in the absent `input/keyevent.rs` and is passed
as a parameter.  Only `BindType::Key` inserts; every other bind type
falls to the `_ => {}` arm, which returns normally with the registry
unchanged. -/
def insert_rc {α : Type} (parse_key_event : String → KeyEvent)
    (reg : List (EventWrapper × α)) (btype : BindType) (k : String) (v : α) :
    InsertOutcome α :=
  match btype with
  | .Key => .ok (mapInsert reg (.ExactMatchEvent (.Key (parse_key_event k))) v)
  | _ => .ok reg

end InputMod

/-- A concrete stand-in for the absent `parse_key_event`. -/
def pk0 : String → KeyEvent := fun _ => ⟨.Char 'a', KeyModifiers.NONE⟩

/-- C9, counterexample: inserting with the reserved `BindType::Mouse`
returns normally with the registry unchanged — it does not abort
construction, contradicting the claimed fail-fast behaviour. -/
theorem C9_reserved_bind_counterexample :
    InputMod.insert_rc pk0 ([] : List (InputMod.EventWrapper × Nat))
        .Mouse ("left") 7 = .ok [] ∧
    InputMod.insert_rc pk0 ([] : List (InputMod.EventWrapper × Nat))
        .Mouse ("left") 7 ≠ .aborted := by
  exact ⟨rfl, by decide⟩

/-- C9, amended: inserting a binding whose bind kind is a reserved
placeholder category (`Mouse` or `Resize`) silently returns the registry
unchanged: the insertion is ignored, no abort happens and no error is
reported. -/
theorem C9_reserved_bind_amended {α : Type}
    (parse_key_event : String → KeyEvent)
    (reg : List (InputMod.EventWrapper × α)) (k : String) (v : α) :
    InputMod.insert_rc parse_key_event reg .Mouse k v = .ok reg ∧
    InputMod.insert_rc parse_key_event reg .Resize k v = .ok reg :=
  ⟨rfl, rfl⟩

/-! ## `src/core/ev_handler.rs`: the event dispatcher

The dispatcher mutates `PagerState`, the shared `is_exitted` atomic and
the `user_input_active` (lock, condvar) pair.  The non-`src/`
collaborators are modelled from the spec below; the fallible external
calls (terminal reads and draws, regex compilation) are oracles supplied
through `Ext`. -/

/-- Modelled from the spec: `PagerState::format_prompt` (crate root, not
under `src/`): recompute the displayed status line, with a set `message`
temporarily overlaying the `prompt` (spec section 3). -/
def format_prompt (ps : PagerState) : PagerState :=
  { ps with displayed_prompt := ps.message.getD ps.prompt }

/-- Modelled from the spec: substring matching standing in for the
external regex engine's `is_match` when the match index is regenerated
(spec section 6, search collaborator). -/
def strContains (s pat : String) : Bool :=
  pat.isEmpty || (s.splitOn pat).length ≥ 2

/-- Modelled from the spec: the ordered set of row indices of
`formatted_lines` matching the active pattern (spec sections 3 and 6). -/
def matchIndices (fmt : List String) : Option String → List Nat
  | none => []
  | some pat =>
      ((List.range fmt.length).filter fun i => strContains (fmt.getD i ("")) pat)

/-- Modelled from the spec: `PagerState::format_lines` (crate root, not
under `src/`): recompute the display rows from the content (the external
wrapping algorithm is out of scope and is modelled as a newline split),
and regenerate `search_idx` from the active pattern (spec section 3 and
the comment at ev_handler.rs line 79). -/
def format_lines (ps : PagerState) : PagerState :=
  let fmt := ps.lines.splitOn ("\n")
  { ps with formatted_lines := fmt, search_idx := matchIndices fmt ps.search_term }

/-- Modelled from the spec: `PagerState::exit` (crate root, not under
`src/`): run the registered exit callbacks (spec section 3). -/
def PagerState.exit (ps : PagerState) : PagerState :=
  { ps with exit_cbs_run := true }

/-- Modelled from the spec: `search::next_nth_match` (in the absent
`src/core/search.rs`); per spec section 4.4, advance the match cursor by
the requested count, then if the match index at the cursor lies before
the current view, jump the view to it and recompute the prompt; if the
match-index set is empty the operation is a no-op. -/
def next_nth_match (ps : PagerState) (n : Nat) : PagerState :=
  if ps.search_idx.isEmpty then ps
  else
    let ps := { ps with search_mark := usizeAdd ps.search_mark n }
    match ps.search_idx.get? ps.search_mark with
    | some y => if y < ps.upper_mark then format_prompt { ps with upper_mark := y } else ps
    | none => ps

/-- The body shared by the previous-match arms of `handle_event`
(ev_handler.rs lines 103-119 with count 1 and lines 126-140 with count
`n`): return immediately on an empty match set, retreat the cursor by the
count saturating at zero, and if the match index at the new cursor is
below the view, jump the view to it and recompute the prompt. -/
def prev_match_move (ps : PagerState) (n : Nat) : PagerState :=
  if ps.search_idx.isEmpty then ps
  else
    let ps := { ps with search_mark := ps.search_mark - n }
    match ps.search_idx.get? ps.search_mark with
    | some y => if y < ps.upper_mark then format_prompt { ps with upper_mark := y } else ps
    | none => ps

/-- Modelled from the spec: `AppendStyle` (core/utils/text.rs, not under
`src/`): the formatter classifies an append as a full reformat or a
partial update of the unterminated tail (spec section 6). -/
inductive AppendStyle where
  | FullRedraw
  | PartialUpdate (fmt_line : String) (num_unterminated : Nat)
  deriving DecidableEq, Repr

/-- Modelled from the spec: `PagerState::append_str_on_unterminated`
(crate root, not under `src/`): replace the unterminated tail rows with
the freshly formatted line (spec section 4.4, append). -/
def append_str_on_unterminated (ps : PagerState) (fmt_line : String)
    (num_unterminated : Nat) : PagerState :=
  { ps with formatted_lines :=
      ps.formatted_lines.take (ps.formatted_lines.length - num_unterminated)
        ++ [fmt_line] }

/-- `MinusError` (crate `error`, not under `src/`): per spec section 7
the failures surfaced by the dispatcher are typed I/O failures. -/
inductive MinusError where
  | IoError (n : Nat)
  deriving DecidableEq, Repr

/-- The `Event` enum consumed by `handle_event` (core/events.rs, not
under `src/`): the arms matched by the dispatcher.  The classifier and
exit-callback payloads are modelled by identifiers, since the dispatcher
only stores them. -/
inductive DispatchEvent where
  | SetData (text : String)
  | UserInput (iev : InputEvent)
  | AppendData (text : String)
  | SetPrompt (prompt : String)
  | SendMessage (message : String)
  | SetLineNumbers (ln : LineNumbers)
  | SetExitStrategy (es : ExitStrategy)
  | SetRunNoOverflow (val : Bool)
  | SetInputClassifier (id : Nat)
  | AddExitCallback
  deriving DecidableEq, Repr

/-- The shared state threaded through one dispatch step: the pager state,
the contents of the `user_input_active` mutex-guarded flag, whether its
condvar has been notified during this step, and the `is_exitted`
atomic. -/
structure World where
  ps : PagerState
  uia_active : Bool
  notified : Bool
  exited : Bool
  deriving Repr

/-- Oracles for the external fallible calls made by one dispatch step:
the outcome of the blocking search-line read (`search::fetch_input`), of
`term::cleanup`, of `display::draw_full`, of `display::draw_for_change`
(which may adjust the requested mark through its `&mut` argument), the
external regex compiler (`regex::Regex::new`), and the `AppendStyle`
reported by `PagerState::append_str`. -/
structure ExtCalls where
  fetch : Except MinusError String
  cleanup : Except MinusError Unit
  draw_full : Except MinusError Unit
  draw_for_change : Nat → Except MinusError Nat
  compile : String → Option String
  append_style : AppendStyle

/-- The part of the search arm of `handle_event` (ev_handler.rs lines
75-93) that runs after the blocking read returned `string` and the
input-thread flag has been restored: compile a nonempty query, on success
store it, reformat, reset the cursor, advance to the next match,
recompute the prompt and redraw fully; on failure set the
invalid-expression message and recompute the prompt. -/
def search_after_read (w : World) (ext : ExtCalls) (string : String) :
    Except MinusError Unit × World :=
  if string.isEmpty then (.ok (), w)
  else
    match ext.compile string with
    | some r =>
        let ps := format_lines { w.ps with search_term := some r }
        let ps := { ps with search_mark := 0 }
        let ps := next_nth_match ps 1
        let ps := format_prompt ps
        let w := { w with ps := ps }
        match ext.draw_full with
        | .error e => (.error e, w)
        | .ok _ => (.ok (), w)
    | none =>
        let ps := format_prompt
          { w.ps with message := some ("Invalid regular expression. Press Enter") }
        (.ok (), { w with ps := ps })

/-- `handle_event` (ev_handler.rs lines 25-172): one dispatch step.
Returns the `Result` of the Rust function together with the state of the
world when it returns.  The `?` operator is modelled by returning the
error with the mutations performed so far. -/
def handle_event (ev : DispatchEvent) (w : World) (ext : ExtCalls) :
    Except MinusError Unit × World :=
  match ev with
  | .SetData text =>
      (.ok (), { w with ps := format_lines { w.ps with lines := text } })
  | .UserInput .Exit =>
      let w := { w with ps := w.ps.exit, exited := true }
      match ext.cleanup with
      | .ok _ => (.ok (), w)
      | .error e => (.error e, w)
  | .UserInput (.UpdateUpperMark um) =>
      match ext.draw_for_change um with
      | .error e => (.error e, w)
      | .ok um2 => (.ok (), { w with ps := { w.ps with upper_mark := um2 } })
  | .UserInput .RestorePrompt =>
      (.ok (), { w with ps := format_prompt { w.ps with message := none } })
  | .UserInput (.UpdateTermArea c r) =>
      (.ok (), { w with ps := format_lines { w.ps with rows := r, cols := c } })
  | .UserInput (.UpdateLineNumber l) =>
      (.ok (), { w with ps := format_lines { w.ps with line_numbers := l } })
  | .UserInput (.Search m) =>
      -- set the mode, then pause the input thread: flag := false under
      -- the lock
      let w := { w with ps := { w.ps with search_mode := m }, uia_active := false }
      -- the blocking read; `?` propagates its failure right here
      match ext.fetch with
      | .error e => (.error e, w)
      | .ok string =>
        -- flag := true under the lock, then notify the condvar
        search_after_read { w with uia_active := true, notified := true } ext string
  | .UserInput .NextMatch =>
      if w.ps.search_term.isSome then
        (.ok (), { w with ps := next_nth_match w.ps 1 })
      else (.ok (), w)
  | .UserInput (.MoveToNextMatch n) =>
      if w.ps.search_term.isSome then
        -- `MoveToNextMatch(1)` is caught by the arm it shares with
        -- `NextMatch` and passes 1; any other count passes
        -- `n.saturating_sub(1)`
        (.ok (), { w with ps := next_nth_match w.ps (if n = 1 then 1 else n - 1) })
      else (.ok (), w)
  | .UserInput .PrevMatch =>
      if w.ps.search_term.isSome then
        (.ok (), { w with ps := prev_match_move w.ps 1 })
      else (.ok (), w)
  | .UserInput (.MoveToPrevMatch n) =>
      if w.ps.search_term.isSome then
        (.ok (), { w with ps := prev_match_move w.ps n })
      else (.ok (), w)
  | .AppendData text =>
      let ps := { w.ps with lines := w.ps.lines ++ text }
      match ext.append_style with
      | .FullRedraw => (.ok (), { w with ps := format_lines ps })
      | .PartialUpdate f n =>
          (.ok (), { w with ps := append_str_on_unterminated ps f n })
  | .SetPrompt prompt =>
      (.ok (), { w with ps := format_prompt { w.ps with prompt := prompt } })
  | .SendMessage msg =>
      (.ok (), { w with ps := format_prompt { w.ps with message := some msg } })
  | .SetLineNumbers ln =>
      (.ok (), { w with ps := format_lines { w.ps with line_numbers := ln } })
  | .SetExitStrategy es =>
      (.ok (), { w with ps := { w.ps with exit_strategy := es } })
  | .SetRunNoOverflow val =>
      (.ok (), { w with ps := { w.ps with run_no_overflow := val } })
  | .SetInputClassifier c =>
      (.ok (), { w with ps := { w.ps with input_classifier := c } })
  | .AddExitCallback =>
      (.ok (), { w with ps := { w.ps with exit_callbacks := w.ps.exit_callbacks + 1 } })
  | .UserInput _ => (.ok (), w)

/-- The post-read part of the search arm only mutates the pager state:
the flag and the notification record are returned as it received them. -/
theorem search_after_read_flags (w : World) (ext : ExtCalls) (s : String) :
    (search_after_read w ext s).2.uia_active = w.uia_active ∧
    (search_after_read w ext s).2.notified = w.notified := by
  unfold search_after_read
  by_cases he : s.isEmpty
  · simp [he]
  · simp only [he, if_neg, Bool.false_eq_true, if_false]
    cases hc : ext.compile s with
    | none => simp
    | some r =>
        cases hd : ext.draw_full with
        | error e => simp [hd]
        | ok u => simp [hd]

/-- A baseline world: representative pager state, input thread active,
nothing notified, not exited. -/
def w0 : World :=
  { ps := ps0, uia_active := true, notified := false, exited := false }

/-- A baseline set of oracles where every external call succeeds. -/
def ext0 : ExtCalls :=
  { fetch := .ok (""), cleanup := .ok (), draw_full := .ok (),
    draw_for_change := fun n => .ok n, compile := fun s => some s,
    append_style := .FullRedraw }

/-- C3, counterexample: dispatching enter-search when the blocking read
fails returns that error with the user-input-active flag still `false`
and the condition variable not notified — the `?` on the read runs before
the flag is restored, so the input-polling thread is not resumed,
contradicting the claimed success-or-failure restoration. -/
theorem C3_search_read_failure_counterexample :
    (handle_event (.UserInput (.Search .Forward)) w0
        { ext0 with fetch := .error (.IoError 0) }).1 =
      .error (.IoError 0) ∧
    (handle_event (.UserInput (.Search .Forward)) w0
        { ext0 with fetch := .error (.IoError 0) }).2.uia_active = false ∧
    (handle_event (.UserInput (.Search .Forward)) w0
        { ext0 with fetch := .error (.IoError 0) }).2.notified = false :=
  ⟨rfl, rfl, rfl⟩

/-- C3, amended: after a successful blocking read the dispatcher restores
the user-input-active flag to `true` under the lock and notifies the
condition variable, whatever the later pattern compilation and redraw do;
but when the read fails, the error propagates at once: the flag stays
`false` and no notification is issued. -/
theorem C3_search_flag_restore_amended (w : World) (ext : ExtCalls)
    (m : SearchMode) :
    (∀ s, ext.fetch = .ok s →
        (handle_event (.UserInput (.Search m)) w ext).2.uia_active = true ∧
        (handle_event (.UserInput (.Search m)) w ext).2.notified = true) ∧
    (∀ e, ext.fetch = .error e →
        (handle_event (.UserInput (.Search m)) w ext).1 = .error e ∧
        (handle_event (.UserInput (.Search m)) w ext).2.uia_active = false ∧
        (handle_event (.UserInput (.Search m)) w ext).2.notified = w.notified) := by
  constructor
  · intro s hs
    simp only [handle_event, hs]
    exact ⟨(search_after_read_flags _ ext s).1.trans rfl,
           (search_after_read_flags _ ext s).2.trans rfl⟩
  · intro e he
    simp [handle_event, he]

/-- C3, amended, witnessed at the baseline world with a successful read
of `"ab"`: the flag is restored and the condvar notified. -/
theorem C3_search_flag_restore_amended_witness :
    (handle_event (.UserInput (.Search .Forward)) w0
        { ext0 with fetch := .ok ("ab") }).2.uia_active = true ∧
    (handle_event (.UserInput (.Search .Forward)) w0
        { ext0 with fetch := .ok ("ab") }).2.notified = true :=
  (C3_search_flag_restore_amended w0 { ext0 with fetch := .ok ("ab") }
    .Forward).1 ("ab") rfl

/-- C6: entering search where the blocking read yields a nonempty query
that the pattern compiler rejects returns `Ok` (the compile failure is
never propagated), leaves `search_term`, the content and the match index
exactly as they were, sets the fixed nonempty advisory message and
recomputes the prompt (the message now overlays it). -/
theorem C6_invalid_pattern_recovery (w : World) (ext : ExtCalls)
    (m : SearchMode) (q : String)
    (hfetch : ext.fetch = .ok q) (hq : q.isEmpty = false)
    (hc : ext.compile q = none) :
    (handle_event (.UserInput (.Search m)) w ext).1 = .ok () ∧
    (handle_event (.UserInput (.Search m)) w ext).2.ps.search_term =
      w.ps.search_term ∧
    (handle_event (.UserInput (.Search m)) w ext).2.ps.lines = w.ps.lines ∧
    (handle_event (.UserInput (.Search m)) w ext).2.ps.formatted_lines =
      w.ps.formatted_lines ∧
    (handle_event (.UserInput (.Search m)) w ext).2.ps.search_idx =
      w.ps.search_idx ∧
    ∃ msg, (handle_event (.UserInput (.Search m)) w ext).2.ps.message =
        some msg ∧
      msg ≠ "" ∧
      (handle_event (.UserInput (.Search m)) w ext).2.ps.displayed_prompt =
        msg := by
  refine ⟨?_, ?_, ?_, ?_, ?_,
      ⟨"Invalid regular expression. Press Enter", ?_, ?_, ?_⟩⟩ <;>
    simp [handle_event, hfetch, search_after_read, hq, hc, format_prompt]

/-- C6, witnessed at the baseline world with query `"["` and a compiler
rejecting everything. -/
theorem C6_invalid_pattern_recovery_witness :
    (handle_event (.UserInput (.Search .Forward)) w0
        { ext0 with fetch := .ok ("["), compile := fun _ => none }).1 =
      .ok () ∧
    (handle_event (.UserInput (.Search .Forward)) w0
        { ext0 with fetch := .ok ("["), compile := fun _ => none }).2.ps.search_term =
      w0.ps.search_term :=
  ⟨(C6_invalid_pattern_recovery w0
      { ext0 with fetch := .ok ("["), compile := fun _ => none }
      .Forward ("[") rfl rfl rfl).1,
   (C6_invalid_pattern_recovery w0
      { ext0 with fetch := .ok ("["), compile := fun _ => none }
      .Forward ("[") rfl rfl rfl).2.1⟩

/-- C7: dispatching an exit input event sets the in-memory exited flag
and runs the exit callbacks regardless of how terminal cleanup ends; a
cleanup failure is returned to the caller as that I/O error while the
flag stays set, and a successful cleanup returns `Ok`. -/
theorem C7_exit_sets_flag_before_cleanup (w : World) (ext : ExtCalls) :
    (handle_event (.UserInput .Exit) w ext).2.exited = true ∧
    (handle_event (.UserInput .Exit) w ext).2.ps.exit_cbs_run = true ∧
    (∀ e, ext.cleanup = .error e →
        (handle_event (.UserInput .Exit) w ext).1 = .error e) ∧
    (∀ u, ext.cleanup = .ok u →
        (handle_event (.UserInput .Exit) w ext).1 = .ok ()) := by
  cases hcl : ext.cleanup with
  | error e => simp [handle_event, PagerState.exit, hcl]
  | ok u => simp [handle_event, PagerState.exit, hcl]

/-- C7, witnessed at the baseline world with a failing cleanup: the flag
is set and the I/O error is reported. -/
theorem C7_exit_sets_flag_before_cleanup_witness :
    (handle_event (.UserInput .Exit) w0
        { ext0 with cleanup := .error (.IoError 3) }).2.exited = true ∧
    (handle_event (.UserInput .Exit) w0
        { ext0 with cleanup := .error (.IoError 3) }).1 =
      .error (.IoError 3) :=
  ⟨(C7_exit_sets_flag_before_cleanup w0
      { ext0 with cleanup := .error (.IoError 3) }).1,
   (C7_exit_sets_flag_before_cleanup w0
      { ext0 with cleanup := .error (.IoError 3) }).2.2.1
      (.IoError 3) rfl⟩

/-- With the match set nonempty, a previous-match move sets the cursor to
the old cursor minus the count, saturating at zero. -/
theorem prev_match_move_search_mark (ps : PagerState) (n : Nat)
    (he : ps.search_idx.isEmpty = false) :
    (prev_match_move ps n).search_mark = ps.search_mark - n := by
  unfold prev_match_move
  simp only [he, Bool.false_eq_true, if_false]
  repeat' split
  all_goals rfl

/-- With the match set empty, a previous-match move returns at once. -/
theorem prev_match_move_empty (ps : PagerState) (n : Nat)
    (he : ps.search_idx.isEmpty = true) :
    prev_match_move ps n = ps := by
  unfold prev_match_move
  simp [he]

/-- When the match at the new cursor sits above the view, the view jumps
to it and the prompt is recomputed. -/
theorem prev_match_move_jump (ps : PagerState) (n y : Nat)
    (he : ps.search_idx.isEmpty = false)
    (hy : ps.search_idx.get? (ps.search_mark - n) = some y)
    (hlt : y < ps.upper_mark) :
    (prev_match_move ps n).upper_mark = y ∧
    (prev_match_move ps n).displayed_prompt = ps.message.getD ps.prompt := by
  unfold prev_match_move
  rw [List.get?_eq_getElem?] at hy
  simp [he, hy, hlt, format_prompt]

/-- When the match at the new cursor is not above the view, the view is
untouched. -/
theorem prev_match_move_nojump (ps : PagerState) (n y : Nat)
    (he : ps.search_idx.isEmpty = false)
    (hy : ps.search_idx.get? (ps.search_mark - n) = some y)
    (hge : ¬y < ps.upper_mark) :
    (prev_match_move ps n).upper_mark = ps.upper_mark := by
  unfold prev_match_move
  rw [List.get?_eq_getElem?] at hy
  simp [he, hy, hge]

/-- With a pattern set, the previous-match dispatch is exactly the shared
previous-match body at count `n`. -/
theorem handle_event_prev_eq (w : World) (ext : ExtCalls) (n : Nat)
    (h : w.ps.search_term.isSome = true) :
    handle_event (.UserInput (.MoveToPrevMatch n)) w ext =
      (.ok (), { w with ps := prev_match_move w.ps n }) := by
  simp [handle_event, h]

/-- With a pattern set, the next-match dispatch calls the next-match
helper with count 1 when the requested count is 1 (the arm shared with
`NextMatch`) and with the saturated `n - 1` otherwise. -/
theorem handle_event_next_eq (w : World) (ext : ExtCalls) (n : Nat)
    (h : w.ps.search_term.isSome = true) :
    handle_event (.UserInput (.MoveToNextMatch n)) w ext =
      (.ok (), { w with ps := next_nth_match w.ps (if n = 1 then 1 else n - 1) }) := by
  simp [handle_event, h]

/-- A pager state with an active pattern, four matches and the view at
the top. -/
def psC : PagerState :=
  { ps0 with
    search_term := some ("a")
    search_idx := [0, 10, 20, 30]
    search_mark := 0
    upper_mark := 0 }

/-- A world around `psC`. -/
def wC : World := { w0 with ps := psC }

/-- C5, counterexample: with the cursor at 0, dispatching
move-to-nth-next-match with count 2 leaves the cursor at 1, not at
`0 + 2` as the claim requires, because the arm passes
`n.saturating_sub(1) = 1` to the next-match helper; indeed the whole
dispatch at count 2 is indistinguishable from the dispatch at count 1. -/
theorem C5_next_match_count_counterexample :
    (handle_event (.UserInput (.MoveToNextMatch 2)) wC ext0).2.ps.search_mark = 1 ∧
    wC.ps.search_mark = 0 ∧
    (1 : Nat) ≠ 0 + 2 ∧
    handle_event (.UserInput (.MoveToNextMatch 2)) wC ext0 =
      handle_event (.UserInput (.MoveToNextMatch 1)) wC ext0 :=
  ⟨rfl, rfl, by decide, rfl⟩

/-- C5, amended: with a pattern set, move-to-nth-previous-match retreats
the cursor by exactly `n` saturating at zero, jumps the view (and
recomputes the prompt) exactly when the match at the new cursor is above
the view, and is a no-op on an empty match set; move-to-nth-next-match
instead delegates to the next-match helper with count 1 when `n = 1` and
with `n - 1` (saturated) otherwise, so it does not advance the cursor by
exactly `n` in general. -/
theorem C5_match_navigation_amended (w : World) (ext : ExtCalls) (n : Nat)
    (h : w.ps.search_term.isSome = true) :
    (handle_event (.UserInput (.MoveToPrevMatch n)) w ext).1 = .ok () ∧
    (w.ps.search_idx.isEmpty = true →
        (handle_event (.UserInput (.MoveToPrevMatch n)) w ext).2 = w) ∧
    (w.ps.search_idx.isEmpty = false →
        (handle_event (.UserInput (.MoveToPrevMatch n)) w ext).2.ps.search_mark =
          w.ps.search_mark - n) ∧
    (∀ y, w.ps.search_idx.isEmpty = false →
        w.ps.search_idx.get? (w.ps.search_mark - n) = some y →
        y < w.ps.upper_mark →
        (handle_event (.UserInput (.MoveToPrevMatch n)) w ext).2.ps.upper_mark = y ∧
        (handle_event (.UserInput (.MoveToPrevMatch n)) w ext).2.ps.displayed_prompt =
          w.ps.message.getD w.ps.prompt) ∧
    (∀ y, w.ps.search_idx.isEmpty = false →
        w.ps.search_idx.get? (w.ps.search_mark - n) = some y →
        ¬y < w.ps.upper_mark →
        (handle_event (.UserInput (.MoveToPrevMatch n)) w ext).2.ps.upper_mark =
          w.ps.upper_mark) ∧
    (handle_event (.UserInput (.MoveToNextMatch n)) w ext).2.ps =
      next_nth_match w.ps (if n = 1 then 1 else n - 1) := by
  rw [handle_event_prev_eq w ext n h, handle_event_next_eq w ext n h]
  refine ⟨rfl, ?_, ?_, ?_, ?_, rfl⟩
  · intro he
    simp [prev_match_move_empty w.ps n he]
  · intro he
    exact prev_match_move_search_mark w.ps n he
  · intro y he hy hlt
    exact prev_match_move_jump w.ps n y he hy hlt
  · intro y he hy hge
    exact prev_match_move_nojump w.ps n y he hy hge

/-- C5, amended, witnessed at the four-match world with count 1: the
cursor retreats from 0 to `0 - 1 = 0`. -/
theorem C5_match_navigation_amended_witness :
    (handle_event (.UserInput (.MoveToPrevMatch 1)) wC ext0).2.ps.search_mark =
      wC.ps.search_mark - 1 :=
  (C5_match_navigation_amended wC ext0 1 rfl).2.2.1 rfl
